import Mathlib

/-!
Verification of the 7-segment fault-display core (display_node.py / mydisplay.py).

The embedding models:
  * Python string helpers used by the code (`str.strip`, `str.split`,
    `str.rjust`, slicing `[:1]` and `[-n:]`, `str.lower`);
  * the static fault-code table `TEXT_TO_NUMERIC_ERROR` and its `.get`
    lookup with default "999";
  * the payload parser of `DisplayNode.listener_callback`;
  * one iteration of `DisplayNode.display_loop` as a list of frames
    (text printed, colon state, hold duration), and the infinite loop as
    a trace indexed by the successive registry snapshots it reads;
  * the registry hand-off (`self.active_errors` guarded by `self.lock`)
    both as a value-level state machine of atomic lock-protected
    operations and as a small heap model that makes the `list.copy()`
    aliasing behaviour visible.

Durations are represented in deciseconds (`0.3 s` = 3, `1.0 s` = 10) to
keep the model exact.
-/

/-- Whitespace predicate matching Python `str.strip()` default set
    (space, tab, newline, carriage return, vertical tab, form feed). -/
def pyIsSpace (c : Char) : Bool :=
  c = ' ' || c = '\t' || c = '\n' || c = '\r' || c = '\u000B' || c = '\u000C'

/-- Python `s.strip()`: remove leading and trailing whitespace. -/
def pyStrip (s : String) : String :=
  ⟨((s.data.dropWhile pyIsSpace).reverse.dropWhile pyIsSpace).reverse⟩

/-- Python `s.lower()` (ASCII identifiers only in this code base),
    character by character. -/
def pyLower (s : String) : String := ⟨s.data.map Char.toLower⟩

/-- Python `s.split(',')` over the character list: pieces between
    commas, keeping empty pieces (so `"".split(',') == [""]` and
    `"a,,b".split(',')` has an empty middle piece). -/
def pySplitComma (cs : List Char) (acc : List Char) : List String :=
  match cs with
  | [] => [⟨acc.reverse⟩]
  | c :: rest =>
    if c = ',' then ⟨acc.reverse⟩ :: pySplitComma rest []
    else pySplitComma rest (c :: acc)

/-- Python `s.rjust(w, fill)`: left-pad with `fill` up to width `w`
    (no change when `s` is already at least `w` long). -/
def pyRjust (s : String) (w : Nat) (fill : Char) : String :=
  ⟨List.replicate (w - s.length) fill ++ s.data⟩

/-- Python slicing `s[-n:]`: the last `n` characters (all of `s` when
    `s` is shorter than `n`). -/
def pyLastN (s : String) (n : Nat) : String :=
  ⟨s.data.drop (s.length - n)⟩

/-- Python slicing `s[:1]`: at most the first character. -/
def pyTake1 (s : String) : String :=
  ⟨s.data.take 1⟩

/-- The static fault-code table of mydisplay.py (simulator branch),
    in source order. -/
def TEXT_TO_NUMERIC_ERROR : List (String × String) :=
  [("lidar_com", "101"), ("lidar_fail", "201"),
   ("emi_com", "102"), ("emi_fail", "202"),
   ("imu_com", "103"), ("imu_fail", "203"),
   ("raspberry_com", "104"), ("raspberry_fail", "204"),
   ("camera_com", "105"), ("camera_fail", "205"),
   ("ip_mesh_com", "106"), ("ip_mesh_fail", "206"),
   ("gps_com", "107"), ("gps_fail", "207"),
   ("general_fail", "999")]

/-- The lookup performed by display_loop:
    `TEXT_TO_NUMERIC_ERROR.get(code_text.lower(), "999")`. -/
def lookupNumericError (code_text : String) : String :=
  (TEXT_TO_NUMERIC_ERROR.lookup (pyLower code_text)).getD "999"

/-- Payload parsing of `DisplayNode.listener_callback`:
    `text = msg.data.strip()`;
    `errors = [e.strip() for e in text.split(',') if e.strip()]`. -/
def parse_errors (msgData : String) : List String :=
  let text := pyStrip msgData
  (pySplitComma text.data []).filterMap (fun e =>
    let t := pyStrip e
    if t = "" then none else some t)

/-- One rendered frame: the text handed to `display.print`, the colon
    (indicator) state set right after, and how long the frame is held
    (`time.sleep`), in deciseconds. -/
structure Frame where
  text : String
  colon : Bool
  holdDs : Nat
  deriving DecidableEq, Repr

/-- Constant `loop_start_code = "---"` of display_loop. -/
def loop_start_code : String := "---"

/-- Constant `loop_start_delay = 0.3` of display_loop, in deciseconds. -/
def loop_start_delay_ds : Nat := 3

/-- Constant `error_delay = 1.0` of display_loop, in deciseconds. -/
def error_delay_ds : Nat := 10

/-- The leading count digit: `num_errors = str(len(errors))[:1]`. -/
def num_errors_digit (n : Nat) : String := pyTake1 (Nat.repr n)

/-- The 3-digit code formatting of display_loop:
    `code_str = str(code).rjust(3, "0")[-3:]`. -/
def code_str (code : String) : String := pyLastN (pyRjust code 3 '0') 3

/-- One fault frame of display_loop:
    `display.print(num_errors + code_str); display.colon = False;
     time.sleep(error_delay)`. -/
def faultFrame (num : String) (code_text : String) : Frame :=
  { text := num ++ code_str (lookupNumericError code_text),
    colon := false, holdDs := error_delay_ds }

/-- The frames emitted by one iteration of the `while True` body of
    `DisplayNode.display_loop`, as a function of the snapshot `errors`
    read at the top of the iteration.  Empty snapshot: `show_no_errors`
    prints "0000" and clears the colon, then the loop sleeps
    `error_delay`.  Non-empty: the loop-start frame
    `num_errors + "---"` held for `loop_start_delay`, then one frame per
    fault in list order. -/
def cycleFrames (errors : List String) : List Frame :=
  match errors with
  | [] => [{ text := "0000", colon := false, holdDs := error_delay_ds }]
  | _ :: _ =>
    let num := num_errors_digit errors.length
    { text := num ++ loop_start_code, colon := false,
      holdDs := loop_start_delay_ds } :: errors.map (faultFrame num)

/-- The frame trace of `display_loop` over finitely many iterations,
    `reads` being the successive snapshots the loop takes of
    `self.active_errors` (one read per iteration, at its start). -/
def displayTrace : List (List String) → List Frame
  | [] => []
  | r :: rs => cycleFrames r ++ displayTrace rs

/-- Renderer-side normalisation in `Seg7x4.print`:
    `text = str(text).rjust(4, "0")[-4:]`. -/
def seg7x4_print_text (text : String) : String :=
  pyLastN (pyRjust text 4 '0') 4

/-! ### Registry: atomic-operation trace model

`self.active_errors` is only ever touched inside `with self.lock:`
blocks, so every `Replace` (the assignment in `listener_callback`) and
every `Snapshot` (the copy at the top of `display_loop`) is atomic; an
interleaving of such operations is a sequence. -/

/-- An atomic lock-protected operation on the registry. -/
inductive RegOp where
  | replace (l : List String)
  | snap
  deriving DecidableEq, Repr

/-- The stored list after running a sequence of atomic operations from
    the state `cur`.  `replace l` is
    `self.active_errors = l.copy()` (a fresh list with the same
    elements); `snap` reads and does not modify. -/
def runOps : List RegOp → List String → List String
  | [], cur => cur
  | .replace l :: ops, _ => runOps ops l
  | .snap :: ops, cur => runOps ops cur

/-- The value a Snapshot returns when it runs after the atomic prefix
    `pre`, starting from the initial state `self.active_errors = []`
    set in `DisplayNode.__init__`. -/
def snapAfter (pre : List RegOp) : List String := runOps pre []

/-! ### Registry: heap model for the defensive copy

Python lists are mutable heap cells.  To state that the registry keeps
a defensive copy (so later mutation of the caller's list is invisible),
we model a heap of list cells with allocation, and `list.copy()` as
allocation of a fresh cell holding the same elements. -/

/-- A heap of Python list objects: `next` is the first unused address. -/
structure Heap where
  next : Nat
  mem : Nat → List String

/-- Read the list stored at address `a`. -/
def Heap.read (h : Heap) (a : Nat) : List String := h.mem a

/-- In-place mutation of the list at address `a` (e.g. `lst.append`,
    `lst[0] = ...`, modelled wholesale as replacing the contents). -/
def Heap.write (h : Heap) (a : Nat) (v : List String) : Heap :=
  ⟨h.next, fun b => if b = a then v else h.mem b⟩

/-- Allocate a fresh list object with contents `v`; returns the new
    heap and the fresh address. -/
def Heap.alloc (h : Heap) (v : List String) : Heap × Nat :=
  (⟨h.next + 1, fun b => if b = h.next then v else h.mem b⟩, h.next)

/-- Python `lst.copy()`: allocate a fresh list with the same elements. -/
def listCopy (h : Heap) (a : Nat) : Heap × Nat := h.alloc (h.read a)

/-- The registry state: the heap and the address `self.active_errors`
    currently points to. -/
structure RegistryState where
  heap : Heap
  activeRef : Nat

/-- `Replace`, as implemented by `listener_callback` lines 47-48:
    `with self.lock: self.active_errors = errors.copy()` where
    `errorsRef` is the address of the caller's list. -/
def Replace (st : RegistryState) (errorsRef : Nat) : RegistryState :=
  let p := listCopy st.heap errorsRef
  { heap := p.1, activeRef := p.2 }

/-- `Snapshot`, as implemented by `display_loop` lines 60-61:
    `with self.lock: errors = self.active_errors.copy()`; the value of
    the copy equals the stored list. -/
def Snapshot (st : RegistryState) : List String :=
  st.heap.read st.activeRef

/-- Mutation of the caller's original list object after the hand-off. -/
def mutateCaller (st : RegistryState) (a : Nat) (v : List String) :
    RegistryState :=
  { st with heap := st.heap.write a v }

/-! ### Helper lemmas -/

/-- Key membership determines `List.lookup` on a table whose keys are
    distinct. -/
theorem lookup_of_mem_keyNodup (l : List (String × String)) (k v : String)
    (hnd : (l.map Prod.fst).Nodup) (hmem : (k, v) ∈ l) :
    l.lookup k = some v := by
  induction l with
  | nil => cases hmem
  | cons p t ih =>
    obtain ⟨k', v'⟩ := p
    simp only [List.map_cons, List.nodup_cons] at hnd
    rcases List.mem_cons.mp hmem with heq | htail
    · cases heq
      simp [List.lookup]
    · have hne : k ≠ k' := by
        rintro rfl
        exact hnd.1 (List.mem_map_of_mem Prod.fst htail)
      have hb : (k == k') = false := beq_eq_false_iff_ne.mpr hne
      simp [List.lookup, hb, ih hnd.2 htail]

/-- Lookup misses when the key is absent from the table. -/
theorem lookup_eq_none_of_not_key (l : List (String × String)) (k : String)
    (hk : k ∉ l.map Prod.fst) : l.lookup k = none := by
  induction l with
  | nil => rfl
  | cons p t ih =>
    obtain ⟨k', v'⟩ := p
    simp only [List.map_cons, List.mem_cons] at hk
    push_neg at hk
    have hb : (k == k') = false := beq_eq_false_iff_ne.mpr hk.1
    simp [List.lookup, hb, ih hk.2]

/-- The token filter of `listener_callback`, over any token list, is
    trim-then-drop-empty. -/
theorem filterMap_strip_eq (l : List String) :
    l.filterMap (fun e => let t := pyStrip e; if t = "" then none else some t) =
      (l.map pyStrip).filter (fun t => t ≠ "") := by
  induction l with
  | nil => rfl
  | cons e t ih =>
    by_cases h : pyStrip e = ""
    · simp [List.filterMap_cons, List.filter_cons, h, ih]
    · simp [List.filterMap_cons, List.filter_cons, h, ih]

/-- The filterMap in `listener_callback` is trim-then-drop-empty. -/
theorem parse_errors_eq (p : String) :
    parse_errors p =
      ((pySplitComma (pyStrip p).data []).map pyStrip).filter
        (fun t => t ≠ "") :=
  filterMap_strip_eq (pySplitComma (pyStrip p).data [])

/-! ### Claims -/

/-- C1: with the registry snapshot `["lidar_fail", "gps_fail"]`, one
    render cycle emits exactly `"2---"` (held `loop_start_delay`), then
    `"2201"` and `"2207"` (each held `error_delay`), in that order, and
    any further frame comes from the next registry read. -/
theorem C1_cycle_lidar_gps (rest : List (List String)) :
    displayTrace (["lidar_fail", "gps_fail"] :: rest) =
      { text := "2---", colon := false, holdDs := loop_start_delay_ds } ::
      { text := "2201", colon := false, holdDs := error_delay_ds } ::
      { text := "2207", colon := false, holdDs := error_delay_ds } ::
      displayTrace rest := by
  have h : cycleFrames ["lidar_fail", "gps_fail"] =
      [{ text := "2---", colon := false, holdDs := loop_start_delay_ds },
       { text := "2201", colon := false, holdDs := error_delay_ds },
       { text := "2207", colon := false, holdDs := error_delay_ds }] := by rfl
  rw [displayTrace, h]
  rfl

/-- C8: while the registry holds the empty list, every loop iteration
    emits exactly one `"0000"` frame with the indicator off, repeated
    for as many iterations as read the empty list, and subsequent
    frames come from the later registry reads. -/
theorem C8_idle_state (n : Nat) (rest : List (List String)) :
    cycleFrames [] =
      [{ text := "0000", colon := false, holdDs := error_delay_ds }] ∧
    displayTrace (List.replicate n [] ++ rest) =
      List.replicate n
        { text := "0000", colon := false, holdDs := error_delay_ds } ++
      displayTrace rest := by
  refine ⟨rfl, ?_⟩
  induction n with
  | zero => rfl
  | succ m ih =>
    rw [List.replicate_succ, List.cons_append, List.replicate_succ,
      List.cons_append, displayTrace, ih]
    rfl

/-- C9: every frame the render loop emits, for every registry content,
    has the indicator (colon) off. -/
theorem C9_indicator_always_off (errors : List String) (f : Frame)
    (hf : f ∈ cycleFrames errors) : f.colon = false := by
  match errors with
  | [] =>
    cases List.mem_singleton.mp hf
    rfl
  | e :: es =>
    rcases List.mem_cons.mp hf with h | hmem
    · rw [h]
    · rcases List.mem_map.mp hmem with ⟨ct, _, h⟩
      rw [← h]
      rfl

/-- C9 witness: the idle frame of the empty registry has the colon off. -/
theorem C9_indicator_always_off_witness :
    (Frame.mk "0000" false error_delay_ds).colon = false :=
  C9_indicator_always_off [] (Frame.mk "0000" false error_delay_ds)
    (by decide)

/-- Length of pad-to-width-then-keep-last-w over character lists. -/
theorem padTrunc_length (l : List Char) (w : Nat) (c : Char) :
    ((List.replicate (w - l.length) c ++ l).drop
      ((List.replicate (w - l.length) c ++ l).length - w)).length = w := by
  simp only [List.length_drop, List.length_append, List.length_replicate]
  omega

/-- Short inputs: the final truncation is the identity, leaving the
    zero-padded string. -/
theorem padTrunc_of_le (l : List Char) (w : Nat) (c : Char)
    (h : l.length ≤ w) :
    (List.replicate (w - l.length) c ++ l).drop
      ((List.replicate (w - l.length) c ++ l).length - w) =
    List.replicate (w - l.length) c ++ l := by
  have h0 : (List.replicate (w - l.length) c ++ l).length - w = 0 := by
    simp only [List.length_append, List.length_replicate]
    omega
  rw [h0, List.drop_zero]

/-- Long inputs: the padding is empty and only the last `w` characters
    are kept. -/
theorem padTrunc_of_ge (l : List Char) (w : Nat) (c : Char)
    (h : w ≤ l.length) :
    (List.replicate (w - l.length) c ++ l).drop
      ((List.replicate (w - l.length) c ++ l).length - w) =
    l.drop (l.length - w) := by
  have h0 : w - l.length = 0 := by omega
  simp [h0]

/-- C2: Replace stores a defensive copy: a Snapshot taken after
    `Replace` (with no intervening Replace) returns, element for
    element and in order, the list the caller passed in, and mutating
    the caller's original list object afterwards does not change what
    Snapshot returns. -/
theorem C2_replace_defensive_copy (st : RegistryState) (a : Nat)
    (v : List String) (h : a < st.heap.next) :
    Snapshot (Replace st a) = st.heap.read a ∧
    Snapshot (mutateCaller (Replace st a) a v) = st.heap.read a := by
  have hne : st.heap.next ≠ a := Nat.ne_of_gt h
  constructor
  · simp [Snapshot, Replace, listCopy, Heap.alloc, Heap.read]
  · simp [Snapshot, Replace, mutateCaller, listCopy, Heap.alloc,
      Heap.read, Heap.write, hne]

/-- Heap with one allocated cell, holding the caller's list. -/
def heapW : Heap := ⟨1, fun _ => ["lidar_fail"]⟩

/-- Registry state for the C2 witness. -/
def stW : RegistryState := ⟨heapW, 0⟩

/-- C2 witness: concrete one-cell heap; overwriting the caller's list
    with `[]` after the Replace leaves the Snapshot unchanged. -/
theorem C2_replace_defensive_copy_witness :
    Snapshot (Replace stW 0) = ["lidar_fail"] ∧
    Snapshot (mutateCaller (Replace stW 0) 0 []) = ["lidar_fail"] :=
  C2_replace_defensive_copy stW 0 [] (by decide)

/-- C3: for any sequence of atomic lock-protected registry operations,
    a Snapshot returns either the initial empty list or exactly the
    argument of some single earlier Replace, never a mix of two. -/
theorem C3_snapshot_never_torn (ops : List RegOp) :
    snapAfter ops = [] ∨
    ∃ l, RegOp.replace l ∈ ops ∧ snapAfter ops = l := by
  suffices h : ∀ cur, runOps ops cur = cur ∨
      ∃ l, RegOp.replace l ∈ ops ∧ runOps ops cur = l from h []
  induction ops with
  | nil => intro cur; exact Or.inl rfl
  | cons op t ih =>
    intro cur
    cases op with
    | replace l =>
      rcases ih l with h | ⟨m, hm, hr⟩
      · exact Or.inr ⟨l, List.mem_cons_self _ _, h⟩
      · exact Or.inr ⟨m, List.mem_cons_of_mem _ hm, hr⟩
    | snap =>
      rcases ih cur with h | ⟨m, hm, hr⟩
      · exact Or.inl h
      · exact Or.inr ⟨m, List.mem_cons_of_mem _ hm, hr⟩

/-- C4: the lookup lower-cases the identifier, returns the mapped code
    when the lower-cased form is a key of the table and "999"
    otherwise; in particular `lookup("LIDAR_FAIL") = "201"` and
    `lookup("unknown_x") = "999"`. -/
theorem C4_lookup_case_insensitive (s c : String) :
    ((pyLower s, c) ∈ TEXT_TO_NUMERIC_ERROR → lookupNumericError s = c) ∧
    (pyLower s ∉ TEXT_TO_NUMERIC_ERROR.map Prod.fst →
      lookupNumericError s = "999") ∧
    lookupNumericError "LIDAR_FAIL" = "201" ∧
    lookupNumericError "unknown_x" = "999" := by
  refine ⟨?_, ?_, rfl, rfl⟩
  · intro hmem
    unfold lookupNumericError
    rw [lookup_of_mem_keyNodup TEXT_TO_NUMERIC_ERROR _ _ (by decide) hmem]
    rfl
  · intro hk
    unfold lookupNumericError
    rw [lookup_eq_none_of_not_key TEXT_TO_NUMERIC_ERROR _ hk]
    rfl

/-- C4 witness: a mapped mixed-case identifier and an unmapped one. -/
theorem C4_lookup_case_insensitive_witness :
    lookupNumericError "GPS_fail" = "207" ∧
    lookupNumericError "imaginary" = "999" :=
  ⟨(C4_lookup_case_insensitive "GPS_fail" "207").1 (by decide),
   (C4_lookup_case_insensitive "imaginary" "x").2.1 (by decide)⟩

/-- C5: in every frame of a non-empty cycle the leading digit is the
    first character of the decimal length of the snapshot; length 10
    renders "1", and lengths 1 through 9 render the exact length. -/
theorem C5_count_digit_truncation :
    (∀ errors : List String, errors ≠ [] → ∀ f ∈ cycleFrames errors,
      ∃ rest, f.text = num_errors_digit errors.length ++ rest) ∧
    num_errors_digit 10 = "1" ∧
    (∀ n, n < 10 → 1 ≤ n → num_errors_digit n = Nat.repr n) := by
  refine ⟨?_, rfl, by decide⟩
  intro errors hne f hf
  cases errors with
  | nil => exact absurd rfl hne
  | cons e es =>
    rcases List.mem_cons.mp hf with h | hmem
    · exact ⟨loop_start_code, by rw [h]⟩
    · rcases List.mem_map.mp hmem with ⟨ct, _, h⟩
      exact ⟨code_str (lookupNumericError ct), by rw [← h]; rfl⟩

/-- C5 witness: the loop-start frame of a 2-fault snapshot carries the
    count digit "2". -/
theorem C5_count_digit_truncation_witness :
    ∃ rest, (Frame.mk "2---" false loop_start_delay_ds).text =
      num_errors_digit 2 ++ rest :=
  C5_count_digit_truncation.1 ["gps_fail", "gps_com"] (by decide)
    (Frame.mk "2---" false loop_start_delay_ds) (by decide)

/-- C6: code formatting pads with the zero character up to length 3
    (right-justified, per `rjust`) then keeps only the last 3
    characters, so the result always has length 3; "1" formats to
    "001" and "1234" to "234". -/
theorem C6_code_zero_padding :
    code_str "1" = "001" ∧ code_str "1234" = "234" ∧
    (∀ s : String, (code_str s).length = 3) ∧
    (∀ s : String, s.length ≤ 3 →
      code_str s = ⟨List.replicate (3 - s.length) '0' ++ s.data⟩) ∧
    (∀ s : String, 3 ≤ s.length →
      code_str s = ⟨s.data.drop (s.length - 3)⟩) :=
  ⟨rfl, rfl,
   fun s => padTrunc_length s.data 3 '0',
   fun s h => congrArg String.mk (padTrunc_of_le s.data 3 '0' h),
   fun s h => congrArg String.mk (padTrunc_of_ge s.data 3 '0' h)⟩

/-- C6 witness: a short and a long code at concrete inputs. -/
theorem C6_code_zero_padding_witness :
    code_str "12" = "012" ∧ code_str "4321" = "321" :=
  ⟨(C6_code_zero_padding.2.2.2.1 "12" (by decide)).trans (by decide),
   (C6_code_zero_padding.2.2.2.2 "4321" (by decide)).trans (by decide)⟩

/-- C7: the parser splits on commas, trims each token, drops tokens
    empty after trimming, preserves order and case, does not
    deduplicate, and never fails: malformed payloads just yield an
    empty or shorter list, and an empty parse renders exactly like
    "no faults". -/
theorem C7_parse_robustness :
    (∀ p, parse_errors p =
      ((pySplitComma (pyStrip p).data []).map pyStrip).filter
        (fun t => t ≠ "")) ∧
    (∀ p t, t ∈ parse_errors p → t ≠ "") ∧
    parse_errors "" = [] ∧
    parse_errors " , ,," = [] ∧
    parse_errors " lidar_fail, GPS_fail " = ["lidar_fail", "GPS_fail"] ∧
    parse_errors "a,b,a" = ["a", "b", "a"] ∧
    cycleFrames (parse_errors "") = cycleFrames [] := by
  refine ⟨parse_errors_eq, ?_, rfl, rfl, rfl, rfl, rfl⟩
  intro p t ht
  rw [parse_errors_eq] at ht
  exact of_decide_eq_true (List.mem_filter.mp ht).2

/-- C7 witness: a token surviving the parse is nonempty. -/
theorem C7_parse_robustness_witness : ("a" : String) ≠ "" :=
  C7_parse_robustness.2.1 "a,b" "a" (by decide)

/-- C10: the renderer's own print normalisation zero-pads (with the
    character zero, not spaces) up to width 4 and keeps only the last
    4 characters, so the displayed text always has exactly 4
    characters whatever the caller passes. -/
theorem C10_renderer_print_normalises :
    (∀ s : String, (seg7x4_print_text s).length = 4) ∧
    (∀ s : String, s.length ≤ 4 →
      seg7x4_print_text s = ⟨List.replicate (4 - s.length) '0' ++ s.data⟩) ∧
    (∀ s : String, 4 ≤ s.length →
      seg7x4_print_text s = ⟨s.data.drop (s.length - 4)⟩) ∧
    seg7x4_print_text "1" = "0001" ∧
    seg7x4_print_text "12345" = "2345" ∧
    seg7x4_print_text "" = "0000" :=
  ⟨fun s => padTrunc_length s.data 4 '0',
   fun s h => congrArg String.mk (padTrunc_of_le s.data 4 '0' h),
   fun s h => congrArg String.mk (padTrunc_of_ge s.data 4 '0' h),
   rfl, rfl, rfl⟩

/-- C10 witness: a 2-character argument is zero-padded to 4. -/
theorem C10_renderer_print_normalises_witness :
    seg7x4_print_text "ab" = "00ab" :=
  (C10_renderer_print_normalises.2.1 "ab" (by decide)).trans (by decide)
